import Mathlib

/-!
Verification of the payload-encoding core of a QR-code generator UI.

The repository's core is `generateQRData(type, data)`: a pure switch on a
string type tag over a loosely-typed form-data object, producing the literal
string to embed in a QR symbol.  We embed the form-data object as a record of
optional fields (JavaScript object properties that may be `undefined`), the
JS idioms `x || ""`, truthiness, and template-literal interpolation as small
helper functions, and `encodeURIComponent` as the ECMA-262 percent-encoder.
The history update in `handleGenerate` (`[newQR, ...prev.slice(0, 9)]`) is
embedded as a list operation.
-/

/-- The form-data object passed to `generateQRData`.  It is an untyped bag in
the source (`data: any`); each field that any of the six branches reads is an
optional property.  Field names follow the zod schemas (`urlSchema`,
`wifiSchema`, `contactSchema`, `textSchema`, `emailSchema`, `smsSchema`). -/
structure FormData where
  url : Option String
  ssid : Option String
  password : Option String
  security : Option String
  hidden : Option Bool
  firstName : Option String
  lastName : Option String
  phone : Option String
  email : Option String
  organization : Option String
  text : Option String
  subject : Option String
  body : Option String
  message : Option String
deriving Repr, DecidableEq

/-- A form-data object with every property absent. -/
def FormData.empty : FormData :=
  ⟨none, none, none, none, none, none, none, none, none, none, none, none, none, none⟩

/-- Models the JS idiom `x || ""` on a possibly-undefined string property:
`undefined` and `""` both yield `""`, anything else is passed through. -/
def jsOrEmpty (o : Option String) : String := o.getD ""

/-- Models interpolation of a possibly-undefined value into a JS template
literal: `undefined` renders as the string `"undefined"`. -/
def jsInterp (o : Option String) : String := o.getD "undefined"

/-- Models JS truthiness of a possibly-undefined string: `undefined` and the
empty string are falsy, all other strings truthy. -/
def jsTruthy (o : Option String) : Bool := !((o.getD "") == "")

/-- Models JS `s.startsWith(p)`: `p` is a prefix of `s` (character-for-
character; the two prefixes tested by the encoder are ASCII, so code-unit
and character comparison agree). -/
def jsStartsWith (s p : String) : Bool := p.data.isPrefixOf s.data

/-- Hex digit used by `encodeURIComponent`: 0-9 then uppercase A-F. -/
def hexDigit (n : Nat) : Char :=
  if n < 10 then Char.ofNat (48 + n) else Char.ofNat (55 + n)

/-- UTF-8 encoding of one code point, as a list of byte values. -/
def utf8Bytes (c : Char) : List Nat :=
  let n := c.toNat
  if n < 128 then [n]
  else if n < 2048 then [192 + n / 64, 128 + n % 64]
  else if n < 65536 then [224 + n / 4096, 128 + (n / 64) % 64, 128 + n % 64]
  else [240 + n / 262144, 128 + (n / 4096) % 64, 128 + (n / 64) % 64, 128 + n % 64]

/-- A percent-escaped byte: `%` followed by two uppercase hex digits. -/
def percentByte (b : Nat) : String :=
  String.mk [Char.ofNat 37, hexDigit (b / 16), hexDigit (b % 16)]

/-- The characters ECMA-262 `encodeURIComponent` leaves unescaped:
A-Z, a-z, 0-9, and `- _ . ! ~ * ' ( )`. -/
def isUriUnescaped (c : Char) : Bool :=
  (65 ≤ c.toNat && c.toNat ≤ 90) ||
  (97 ≤ c.toNat && c.toNat ≤ 122) ||
  (48 ≤ c.toNat && c.toNat ≤ 57) ||
  c.toNat == 45 || c.toNat == 95 || c.toNat == 46 || c.toNat == 33 ||
  c.toNat == 126 || c.toNat == 42 || c.toNat == 39 || c.toNat == 40 ||
  c.toNat == 41

/-- One character's image under `encodeURIComponent`. -/
def encodeURIComponentChar (c : Char) : String :=
  if isUriUnescaped c then String.singleton c
  else String.join ((utf8Bytes c).map percentByte)

/-- The ECMA-262 `encodeURIComponent` builtin used by the email and sms
branches of the encoder. -/
def encodeURIComponent (s : String) : String :=
  String.join (s.data.map encodeURIComponentChar)

/-- Direct translation of `generateQRData` from `src/unnamed/part_000`
lines 124-157.  The switch dispatches on the raw string tag; `none` in the
result models the thrown `TypeError` of `data.url.startsWith` when `data.url`
is `undefined` and the non-string `undefined` result of the text branch when
`data.text` is `undefined`; every other outcome is `some` of the returned
string. -/
def generateQRData (type : String) (data : FormData) : Option String :=
  if type = "url" then
    match data.url with
    | none => none
    | some url =>
      some (if !jsStartsWith url "http://" && !jsStartsWith url "https://" then
              "https://" ++ url
            else url)
  else if type = "wifi" then
    some ("WIFI:T:" ++ jsInterp data.security ++ ";S:" ++ jsInterp data.ssid ++
          ";P:" ++ jsOrEmpty data.password ++ ";H:" ++
          (match data.hidden with
           | some true => "true"
           | _ => "false") ++ ";;")
  else if type = "contact" then
    some ("BEGIN:VCARD\nVERSION:3.0\nFN:" ++ jsInterp data.firstName ++ " " ++
          jsOrEmpty data.lastName ++ "\nORG:" ++ jsOrEmpty data.organization ++
          "\nTEL:" ++ jsOrEmpty data.phone ++ "\nEMAIL:" ++
          jsOrEmpty data.email ++ "\nURL:" ++ jsOrEmpty data.url ++
          "\nEND:VCARD")
  else if type = "text" then
    data.text
  else if type = "email" then
    some ("mailto:" ++ jsInterp data.email ++ "?subject=" ++
          encodeURIComponent (jsOrEmpty data.subject) ++ "&body=" ++
          encodeURIComponent (jsOrEmpty data.body))
  else if type = "sms" then
    some ("sms:" ++ jsInterp data.phone ++
          (if jsTruthy data.message then
             "?body=" ++ encodeURIComponent (jsOrEmpty data.message)
           else ""))
  else
    some ""

/-- Form data for the url tab: `urlSchema` requires the `url` field. -/
def mkUrl (u : String) : FormData :=
  { FormData.empty with url := some u }

/-- Form data for the wifi tab, per `wifiSchema`. -/
def mkWifi (ssid : String) (password : Option String) (security : String)
    (hidden : Option Bool) : FormData :=
  { FormData.empty with
      ssid := some ssid, password := password, security := some security,
      hidden := hidden }

/-- Form data for the contact tab, per `contactSchema`. -/
def mkContact (firstName : String)
    (lastName phone email organization url : Option String) : FormData :=
  { FormData.empty with
      firstName := some firstName, lastName := lastName, phone := phone,
      email := email, organization := organization, url := url }

/-- Form data for the text tab, per `textSchema`. -/
def mkText (t : String) : FormData :=
  { FormData.empty with text := some t }

/-- Form data for the email tab, per `emailSchema`. -/
def mkEmail (email : String) (subject body : Option String) : FormData :=
  { FormData.empty with
      email := some email, subject := subject, body := body }

/-- Form data for the sms tab, per `smsSchema`. -/
def mkSms (phone : String) (message : Option String) : FormData :=
  { FormData.empty with phone := some phone, message := message }

/-- Well-formed encoder input: one of the six known type tags together with
the fields its zod schema marks required (section 3 of the spec). -/
def WellFormed (type : String) (d : FormData) : Prop :=
  (type = "url" ∧ d.url.isSome) ∨
  (type = "wifi" ∧ d.ssid.isSome ∧ d.security.isSome) ∨
  (type = "contact" ∧ d.firstName.isSome) ∨
  (type = "text" ∧ d.text.isSome) ∨
  (type = "email" ∧ d.email.isSome) ∨
  (type = "sms" ∧ d.phone.isSome)

/-- Rendering options attached to every generated QR code (`QROptions` in
`src/unnamed/part_002`). -/
structure QROptions where
  size : Nat
  errorCorrectionLevel : String
  foregroundColor : String
  backgroundColor : String
  margin : Nat
deriving Repr, DecidableEq

/-- One history entry (`GeneratedQR` in `src/unnamed/part_002`). -/
structure GeneratedQR where
  id : String
  type : String
  data : String
  dataUrl : String
  options : QROptions
deriving Repr, DecidableEq

/-- The list update `[newQR, ...prev.slice(0, 9)]` performed on the
`generatedQRs` state by `handleGenerate` (`src/unnamed/part_000` line 237):
the new entry is prepended to the first nine previous entries
(`Array.prototype.slice(0, 9)` takes at most the first nine elements). -/
def updateHistory (newQR : GeneratedQR) (prev : List GeneratedQR) :
    List GeneratedQR :=
  newQR :: prev.take 9

/-- A concrete history entry used to instantiate the history theorem. -/
def sampleQR (id : String) : GeneratedQR :=
  ⟨id, "url", "https://example.com", "data:image/png;base64,", ⟨256, "M", "#000000", "#ffffff", 4⟩⟩

/-- C1: a url input already starting with `http://` or `https://`
(case-sensitively) passes through unchanged; any other url string gets
`https://` prepended, and nothing else is done to it. -/
theorem generateQRData_url (u : String) (d : FormData) (h : d.url = some u) :
    generateQRData "url" d =
      some (if jsStartsWith u "http://" || jsStartsWith u "https://" then u
            else "https://" ++ u) := by
  simp only [generateQRData, h, if_pos rfl]
  cases hA : jsStartsWith u "http://" <;> cases hB : jsStartsWith u "https://" <;> simp [hA, hB]

theorem generateQRData_url_witness :
    (mkUrl "example.com").url = some "example.com" ∧
    (mkUrl "http://example.com").url = some "http://example.com" ∧
    generateQRData "url" (mkUrl "example.com") =
      some (if jsStartsWith "example.com" "http://" ||
               jsStartsWith "example.com" "https://" then "example.com"
            else "https://" ++ "example.com") ∧
    generateQRData "url" (mkUrl "http://example.com") =
      some (if jsStartsWith "http://example.com" "http://" ||
               jsStartsWith "http://example.com" "https://" then
              "http://example.com"
            else "https://" ++ "http://example.com") :=
  ⟨rfl, rfl, generateQRData_url "example.com" (mkUrl "example.com") rfl,
   generateQRData_url "http://example.com" (mkUrl "http://example.com") rfl⟩

/-- C2: a wifi input encodes to
`WIFI:T:<security>;S:<ssid>;P:<password or empty>;H:<"true"|"false">;;`,
with the security enum verbatim, the hidden flag rendered as the literal
string `"true"` exactly when it is `true`, a terminating double semicolon,
and no escaping inside ssid or password. -/
theorem generateQRData_wifi (ssid security : String) (d : FormData)
    (h1 : d.ssid = some ssid) (h2 : d.security = some security) :
    generateQRData "wifi" d =
      some ("WIFI:T:" ++ security ++ ";S:" ++ ssid ++ ";P:" ++
            d.password.getD "" ++ ";H:" ++
            (if d.hidden = some true then "true" else "false") ++ ";;") := by
  simp only [generateQRData, jsInterp, jsOrEmpty, h1, h2, Option.getD_some]
  rcases hh : d.hidden with - | b
  · simp
  · cases b <;> simp

theorem generateQRData_wifi_witness :
    (mkWifi "Home" (some "secret") "WPA" (some true)).ssid = some "Home" ∧
    (mkWifi "Home" (some "secret") "WPA" (some true)).security = some "WPA" ∧
    generateQRData "wifi" (mkWifi "Home" (some "secret") "WPA" (some true)) =
      some ("WIFI:T:" ++ "WPA" ++ ";S:" ++ "Home" ++ ";P:" ++
            (mkWifi "Home" (some "secret") "WPA" (some true)).password.getD "" ++
            ";H:" ++
            (if (mkWifi "Home" (some "secret") "WPA" (some true)).hidden =
                some true then "true" else "false") ++ ";;") :=
  ⟨rfl, rfl,
   generateQRData_wifi "Home" "WPA" (mkWifi "Home" (some "secret") "WPA" (some true)) rfl rfl⟩

/-- C3: a contact input encodes to the newline-separated vCard 3.0 record,
with every absent optional field emitted as an empty value on its line and a
space always between first and last name in the `FN` line. -/
theorem generateQRData_contact (fn : String) (d : FormData)
    (h : d.firstName = some fn) :
    generateQRData "contact" d =
      some ("BEGIN:VCARD\nVERSION:3.0\nFN:" ++ fn ++ " " ++
            d.lastName.getD "" ++ "\nORG:" ++ d.organization.getD "" ++
            "\nTEL:" ++ d.phone.getD "" ++ "\nEMAIL:" ++ d.email.getD "" ++
            "\nURL:" ++ d.url.getD "" ++ "\nEND:VCARD") := by
  simp [generateQRData, jsInterp, jsOrEmpty, h]

theorem generateQRData_contact_witness :
    (mkContact "John" (some "Doe") none none none none).firstName =
      some "John" ∧
    generateQRData "contact" (mkContact "John" (some "Doe") none none none none) =
      some ("BEGIN:VCARD\nVERSION:3.0\nFN:" ++ "John" ++ " " ++
            (some "Doe").getD "" ++ "\nORG:" ++ (none : Option String).getD "" ++
            "\nTEL:" ++ (none : Option String).getD "" ++ "\nEMAIL:" ++
            (none : Option String).getD "" ++ "\nURL:" ++
            (none : Option String).getD "" ++ "\nEND:VCARD") :=
  ⟨rfl,
   generateQRData_contact "John" (mkContact "John" (some "Doe") none none none none) rfl⟩

/-- C4: an email input encodes to
`mailto:<email>?subject=<enc subject>&body=<enc body>` with subject and body
defaulting to the empty string, both query parameters always present, the
address itself unencoded, and percent-encoding per `encodeURIComponent`
(in particular a space becomes `%20`). -/
theorem generateQRData_email (e : String) (d : FormData)
    (h : d.email = some e) :
    generateQRData "email" d =
      some ("mailto:" ++ e ++ "?subject=" ++
            encodeURIComponent (d.subject.getD "") ++ "&body=" ++
            encodeURIComponent (d.body.getD "")) ∧
    encodeURIComponent " " = "%20" := by
  refine ⟨?_, by decide⟩
  simp [generateQRData, jsInterp, jsOrEmpty, h]

theorem generateQRData_email_witness :
    (mkEmail "a@b.com" (some "Hi there") (some "")).email = some "a@b.com" ∧
    (generateQRData "email" (mkEmail "a@b.com" (some "Hi there") (some "")) =
       some ("mailto:" ++ "a@b.com" ++ "?subject=" ++
             encodeURIComponent ((mkEmail "a@b.com" (some "Hi there")
               (some "")).subject.getD "") ++ "&body=" ++
             encodeURIComponent ((mkEmail "a@b.com" (some "Hi there")
               (some "")).body.getD "")) ∧
     encodeURIComponent " " = "%20") :=
  ⟨rfl,
   generateQRData_email "a@b.com" (mkEmail "a@b.com" (some "Hi there") (some "")) rfl⟩

/-- C5: an sms input encodes to `sms:<phone>?body=<enc message>` when the
message is non-empty and to exactly `sms:<phone>` (no `?body=` segment) when
the message is empty or absent. -/
theorem generateQRData_sms (p : String) (d : FormData) (h : d.phone = some p) :
    (∀ m, m ≠ "" → d.message = some m →
       generateQRData "sms" d =
         some ("sms:" ++ p ++ "?body=" ++ encodeURIComponent m)) ∧
    ((d.message = none ∨ d.message = some "") →
       generateQRData "sms" d = some ("sms:" ++ p)) := by
  constructor
  · intro m hm hmsg
    simp [generateQRData, jsInterp, jsTruthy, jsOrEmpty, h, hmsg, hm,
      String.append_assoc]
  · rintro (hmsg | hmsg) <;>
      simp [generateQRData, jsInterp, jsTruthy, jsOrEmpty, h, hmsg]

theorem generateQRData_sms_witness :
    ((mkSms "+15551234567" (some "hi you")).phone = some "+15551234567" ∧
     "hi you" ≠ "" ∧
     (mkSms "+15551234567" (some "hi you")).message = some "hi you" ∧
     generateQRData "sms" (mkSms "+15551234567" (some "hi you")) =
       some ("sms:" ++ "+15551234567" ++ "?body=" ++
             encodeURIComponent "hi you")) ∧
    ((mkSms "+15551234567" (some "")).phone = some "+15551234567" ∧
     (mkSms "+15551234567" (some "")).message = some "" ∧
     generateQRData "sms" (mkSms "+15551234567" (some "")) =
       some ("sms:" ++ "+15551234567")) :=
  ⟨⟨rfl, by decide, rfl,
    (generateQRData_sms "+15551234567" (mkSms "+15551234567" (some "hi you"))
      rfl).1 "hi you" (by decide) rfl⟩,
   ⟨rfl, rfl,
    (generateQRData_sms "+15551234567" (mkSms "+15551234567" (some ""))
      rfl).2 (Or.inr rfl)⟩⟩

/-- C6: the text encoder is the identity on the text field, and re-encoding
its output as a Text input returns the same string (idempotence). -/
theorem generateQRData_text (t : String) (d : FormData) (h : d.text = some t) :
    generateQRData "text" d = some t ∧
    generateQRData "text" (mkText t) = some t := by
  constructor
  · simp [generateQRData, h]
  · simp [generateQRData, mkText, FormData.empty]

theorem generateQRData_text_witness :
    (mkText "hello world").text = some "hello world" ∧
    (generateQRData "text" (mkText "hello world") = some "hello world" ∧
     generateQRData "text" (mkText "hello world") = some "hello world") :=
  ⟨rfl, generateQRData_text "hello world" (mkText "hello world") rfl⟩

/-- C7: the encoder is deterministic (identical tag and fields give identical
output) and total on well-formed input (it always returns a string, never a
failure). -/
theorem generateQRData_deterministic_total :
    (∀ t₁ d₁ t₂ d₂, t₁ = t₂ → d₁ = d₂ →
       generateQRData t₁ d₁ = generateQRData t₂ d₂) ∧
    (∀ t d, WellFormed t d → (generateQRData t d).isSome) := by
  constructor
  · intro t₁ d₁ t₂ d₂ h1 h2
    rw [h1, h2]
  · intro t d h
    rcases h with ⟨ht, hf⟩ | ⟨ht, -, -⟩ | ⟨ht, -⟩ | ⟨ht, hf⟩ | ⟨ht, -⟩ | ⟨ht, -⟩ <;>
        subst ht
    · obtain ⟨u, hu⟩ := Option.isSome_iff_exists.mp hf
      simp [generateQRData, hu]
    · simp [generateQRData]
    · simp [generateQRData]
    · obtain ⟨x, hx⟩ := Option.isSome_iff_exists.mp hf
      simp [generateQRData, hx]
    · simp [generateQRData]
    · simp [generateQRData]

theorem generateQRData_deterministic_total_witness :
    generateQRData "url" (mkUrl "example.com") =
      generateQRData "url" (mkUrl "example.com") ∧
    WellFormed "url" (mkUrl "example.com") ∧
    (generateQRData "url" (mkUrl "example.com")).isSome :=
  ⟨generateQRData_deterministic_total.1 "url" (mkUrl "example.com")
     "url" (mkUrl "example.com") rfl rfl,
   Or.inl ⟨rfl, rfl⟩,
   generateQRData_deterministic_total.2 "url" (mkUrl "example.com")
     (Or.inl ⟨rfl, rfl⟩)⟩

/-- C8: a wifi input whose hidden flag is absent (or false) still emits the
segment `H:false` — the absent boolean defaults to the literal `"false"`,
not to an empty `H:` value. -/
theorem generateQRData_wifi_hidden_default (ssid security : String)
    (d : FormData) (h1 : d.ssid = some ssid) (h2 : d.security = some security)
    (h3 : d.hidden = none ∨ d.hidden = some false) :
    generateQRData "wifi" d =
      some ("WIFI:T:" ++ security ++ ";S:" ++ ssid ++ ";P:" ++
            d.password.getD "" ++ ";H:false;;") := by
  rcases h3 with h3 | h3 <;>
    simp [generateQRData, jsInterp, jsOrEmpty, h1, h2, h3, String.append_assoc]

theorem generateQRData_wifi_hidden_default_witness :
    (mkWifi "Guest" none "nopass" none).ssid = some "Guest" ∧
    (mkWifi "Guest" none "nopass" none).security = some "nopass" ∧
    (mkWifi "Guest" none "nopass" none).hidden = none ∧
    generateQRData "wifi" (mkWifi "Guest" none "nopass" none) =
      some ("WIFI:T:" ++ "nopass" ++ ";S:" ++ "Guest" ++ ";P:" ++
            (mkWifi "Guest" none "nopass" none).password.getD "" ++
            ";H:false;;") :=
  ⟨rfl, rfl, rfl,
   generateQRData_wifi_hidden_default "Guest" "nopass"
     (mkWifi "Guest" none "nopass" none) rfl rfl (Or.inl rfl)⟩

/-- C9: any type tag other than the six known payload types falls through to
the default branch and returns the empty string, for every field set. -/
theorem generateQRData_unknown_type (t : String) (d : FormData)
    (h : t ∉ (["url", "wifi", "contact", "text", "email", "sms"] :
              List String)) :
    generateQRData t d = some "" := by
  simp only [List.mem_cons, List.not_mem_nil, or_false, not_or] at h
  obtain ⟨h1, h2, h3, h4, h5, h6⟩ := h
  simp [generateQRData, h1, h2, h3, h4, h5, h6]

theorem generateQRData_unknown_type_witness :
    "barcode" ∉ (["url", "wifi", "contact", "text", "email", "sms"] :
                 List String) ∧
    generateQRData "barcode" FormData.empty = some "" :=
  ⟨by decide,
   generateQRData_unknown_type "barcode" FormData.empty (by decide)⟩

/-- C10: starting from a history of at most 10 entries, `handleGenerate`
replaces it with the new entry prepended to at most the first 9 previous
entries, so the length never exceeds 10 and the newest entry is first. -/
theorem handleGenerate_history_bounded (q : GeneratedQR)
    (prev : List GeneratedQR) (h : prev.length ≤ 10) :
    updateHistory q prev = q :: prev.take 9 ∧
    (updateHistory q prev).length ≤ 10 ∧
    (updateHistory q prev).head? = some q := by
  refine ⟨rfl, ?_, rfl⟩
  simp only [updateHistory, List.length_cons, List.length_take]
  omega

theorem handleGenerate_history_bounded_witness :
    ([sampleQR "1", sampleQR "2", sampleQR "3"].length ≤ 10 ∧
     updateHistory (sampleQR "4") [sampleQR "1", sampleQR "2", sampleQR "3"] =
       sampleQR "4" :: [sampleQR "1", sampleQR "2", sampleQR "3"].take 9 ∧
     (updateHistory (sampleQR "4")
        [sampleQR "1", sampleQR "2", sampleQR "3"]).length ≤ 10 ∧
     (updateHistory (sampleQR "4")
        [sampleQR "1", sampleQR "2", sampleQR "3"]).head? =
       some (sampleQR "4")) :=
  ⟨by decide,
   handleGenerate_history_bounded (sampleQR "4")
     [sampleQR "1", sampleQR "2", sampleQR "3"] (by decide)⟩
